import Mathlib

/-!
Verification of the bracket-based tax computations of the repository
(`cn_tax.py`, `us_tax.py`), shallowly embedded over the rationals.
-/

namespace TaxSpec

/-- A tax bracket as in `us_tax.TaxBracket` and the tuples of
`cn_tax.TaxConstants.TAX_BRACKETS`: a lower bound, an upper bound
(`none` models `float('inf')`), and a marginal rate. -/
structure Bracket where
  lower : ℚ
  upper : Option ℚ
  rate : ℚ
deriving DecidableEq

/-- A bracket table is valid from `lo` when its first bracket starts at `lo`,
brackets are contiguous and ascending, rates lie in `[0,1]`, and the last
bracket (and only the last) is unbounded. `validFrom 0 T` is the
BracketTable invariant of the spec. -/
def validFrom (lo : ℚ) : List Bracket → Bool
  | [] => false
  | ⟨l, none, r⟩ :: bs =>
      decide (l = lo) && decide (0 ≤ r) && decide (r ≤ 1) && bs.isEmpty
  | ⟨l, some u, r⟩ :: bs =>
      decide (l = lo) && decide (lo < u) && decide (0 ≤ r) && decide (r ≤ 1) && validFrom u bs

/-- One iteration of the bracket loop of `cn_tax.calculate_tax`:
`if annual_taxable > lower: tax += min(annual_taxable - lower, upper - lower) * rate`. -/
def cnStep (x : ℚ) (b : Bracket) : ℚ :=
  if b.lower < x then
    (match b.upper with
     | none => x - b.lower
     | some u => min (x - b.lower) (u - b.lower)) * b.rate
  else 0

/-- The forward-accumulation bracket loop of `cn_tax.calculate_tax`. -/
def cnLiab (x : ℚ) : List Bracket → ℚ
  | [] => 0
  | b :: bs => cnStep x b + cnLiab x bs

/-- The amount consumed by one bracket in the remaining-income loop of
`us_tax.calculate_federal_tax`: `min(remaining_income, bracket.upper - bracket.lower)`
(with an infinite upper bound the `min` is `remaining_income`). -/
def bracketAmt (rem : ℚ) (b : Bracket) : ℚ :=
  match b.upper with
  | none => rem
  | some u => min rem (u - b.lower)

/-- The remaining-income subtraction loop shared by
`us_tax.calculate_federal_tax` and `us_tax.calculate_ca_state_tax`:
`if remaining_income <= 0: break; taxable_amount = min(remaining, upper - lower); total += taxable_amount * rate; remaining -= taxable_amount`. -/
def usLoop (rem : ℚ) : List Bracket → ℚ
  | [] => 0
  | b :: bs =>
      if rem ≤ 0 then 0
      else bracketAmt rem b * b.rate + usLoop (rem - bracketAmt rem b) bs

/-- The membership test `lower <= x <= upper` of the rate-lookup loops
(an infinite upper bound always satisfies the right inequality). -/
def withinBracket (x : ℚ) (b : Bracket) : Bool :=
  decide (b.lower ≤ x) && (match b.upper with | none => true | some u => decide (x ≤ u))

/-- First-match bracket-rate lookup, the loop shape of
`cn_tax.calculate_marginal_rates`, `us_tax.calculate_marginal_rates`
(default 0) and `us_tax.calculate_capital_gains_tax` (default `0.20`):
returns the rate of the first bracket matching `withinBracket`. -/
def rateLookup (dflt x : ℚ) : List Bracket → ℚ
  | [] => dflt
  | b :: bs => if withinBracket x b then b.rate else rateLookup dflt x bs

/-- The fully-saturated contribution of a bounded bracket, `(upper - lower) * rate`. -/
def fullContrib : Bracket → ℚ
  | ⟨l, some u, r⟩ => (u - l) * r
  | ⟨_, none, _⟩ => 0

/-- Sum of fully-saturated contributions of a list of brackets. -/
def sumFull : List Bracket → ℚ
  | [] => 0
  | b :: bs => fullContrib b + sumFull bs

/-! ### Constants and tables of `cn_tax.TaxConstants` -/

def TAX_FREE_THRESHOLD : ℚ := 5000

def TAX_BRACKETS : List Bracket :=
  [⟨0, some 36000, 3/100⟩, ⟨36000, some 144000, 10/100⟩, ⟨144000, some 300000, 20/100⟩,
   ⟨300000, some 420000, 25/100⟩, ⟨420000, some 660000, 30/100⟩,
   ⟨660000, some 960000, 35/100⟩, ⟨960000, none, 45/100⟩]

def SOCIAL_INSURANCE_BASE_MIN : ℚ := 3613
def SOCIAL_INSURANCE_BASE_MAX : ℚ := 31884
def HOUSING_FUND_BASE_MAX : ℚ := 31884

def PENSION_RATE : ℚ := 8/100
def MEDICAL_RATE : ℚ := 2/100
def UNEMPLOYMENT_RATE : ℚ := 5/1000
def HOUSING_FUND_RATE : ℚ := 12/100

def EMPLOYER_PENSION_RATE : ℚ := 16/100
def EMPLOYER_MEDICAL_RATE : ℚ := 95/1000
def EMPLOYER_UNEMPLOYMENT_RATE : ℚ := 5/1000
def EMPLOYER_INJURY_RATE : ℚ := 4/1000
def EMPLOYER_MATERNITY_RATE : ℚ := 8/1000
def EMPLOYER_HOUSING_FUND_RATE : ℚ := 12/100

/-- The `"personal"` and `"employer"` parts and the clamped base returned by
`cn_tax.calculate_social_insurance`. -/
structure SocialInsurance where
  pension : ℚ
  medical : ℚ
  unemployment : ℚ
  housing_fund : ℚ
  personal_total : ℚ
  employer_pension : ℚ
  employer_medical : ℚ
  employer_unemployment : ℚ
  employer_injury : ℚ
  employer_maternity : ℚ
  employer_housing_fund : ℚ
  employer_total : ℚ
  base : ℚ

/-- `cn_tax.calculate_social_insurance`: clamps the salary to the base window
and applies each flat rate to the clamped base. -/
def calculate_social_insurance (monthly_salary : ℚ) : SocialInsurance :=
  let base := min (max monthly_salary SOCIAL_INSURANCE_BASE_MIN) SOCIAL_INSURANCE_BASE_MAX
  let pension := base * PENSION_RATE
  let medical := base * MEDICAL_RATE
  let unemployment := base * UNEMPLOYMENT_RATE
  let housing_fund := base * HOUSING_FUND_RATE
  let employer_pension := base * EMPLOYER_PENSION_RATE
  let employer_medical := base * EMPLOYER_MEDICAL_RATE
  let employer_unemployment := base * EMPLOYER_UNEMPLOYMENT_RATE
  let employer_injury := base * EMPLOYER_INJURY_RATE
  let employer_maternity := base * EMPLOYER_MATERNITY_RATE
  let employer_housing_fund := base * EMPLOYER_HOUSING_FUND_RATE
  ⟨pension, medical, unemployment, housing_fund,
   pension + medical + unemployment + housing_fund,
   employer_pension, employer_medical, employer_unemployment, employer_injury,
   employer_maternity, employer_housing_fund,
   employer_pension + employer_medical + employer_unemployment + employer_injury +
     employer_maternity + employer_housing_fund,
   base⟩

/-- The special-deduction amounts of `cn_tax.SpecialDeductions`. -/
structure SpecialDeductions where
  housing_rent : ℚ
  housing_loan : ℚ
  children_edu : ℚ
  continuing_edu : ℚ
  elderly_care : ℚ
  medical_expense : ℚ

/-- The all-zero deduction set (the dataclass defaults). -/
def zeroDeductions : SpecialDeductions := ⟨0, 0, 0, 0, 0, 0⟩

/-- The sum of special deductions formed inside `cn_tax.calculate_tax`. -/
def special_deductions_total (d : SpecialDeductions) : ℚ :=
  d.housing_rent + d.housing_loan + d.children_edu + d.continuing_edu +
    d.elderly_care + d.medical_expense

/-- The taxable income formed inside `cn_tax.calculate_tax`:
`monthly_salary - TAX_FREE_THRESHOLD - insurance["personal"]["total"] - special_deductions`. -/
def cn_taxable_income (monthly_salary : ℚ) (d : SpecialDeductions) : ℚ :=
  monthly_salary - TAX_FREE_THRESHOLD -
    (calculate_social_insurance monthly_salary).personal_total -
    special_deductions_total d

/-- The result dictionary of `cn_tax.calculate_tax`. -/
structure CnTaxResult where
  gross_salary : ℚ
  insurance : SocialInsurance
  special_deductions : ℚ
  taxable_income : ℚ
  tax : ℚ
  net_income : ℚ

/-- `cn_tax.calculate_tax`: builds the taxable income, runs the annualized
bracket loop only when `taxable_income > 0`, and reports the monthly tax
(`tax / 12`) and net income. -/
def cn_calculate_tax (monthly_salary : ℚ) (d : SpecialDeductions) : CnTaxResult :=
  let insurance := calculate_social_insurance monthly_salary
  let taxable := cn_taxable_income monthly_salary d
  let tax := if 0 < taxable then cnLiab (taxable * 12) TAX_BRACKETS else 0
  ⟨monthly_salary, insurance, special_deductions_total d, taxable, tax / 12,
   monthly_salary - tax / 12 - insurance.personal_total⟩

/-- The result dictionary of `cn_tax.calculate_marginal_rates`. -/
structure CnMarginalRates where
  tax : ℚ
  insurance : ℚ
  housing_fund : ℚ
  total : ℚ

/-- `cn_tax.calculate_marginal_rates`: first-match bracket lookup on the
annualized salary, plus flat insurance and housing-fund rates below the caps. -/
def cn_calculate_marginal_rates (monthly_salary : ℚ) : CnMarginalRates :=
  let tax_rate := rateLookup 0 (monthly_salary * 12) TAX_BRACKETS
  let insurance_rate :=
    if monthly_salary ≤ SOCIAL_INSURANCE_BASE_MAX then
      PENSION_RATE + MEDICAL_RATE + UNEMPLOYMENT_RATE
    else 0
  let housing_fund_rate :=
    if monthly_salary ≤ HOUSING_FUND_BASE_MAX then HOUSING_FUND_RATE else 0
  ⟨tax_rate, insurance_rate, housing_fund_rate,
   tax_rate + insurance_rate + housing_fund_rate⟩

/-! ### Constants and tables of `us_tax.TaxConstants` -/

/-- Filing status, the keys of the `us_tax` bracket dictionaries. -/
inductive Status where
  | single
  | married
deriving DecidableEq

def MAX_401K : ℚ := 23000
def SS_LIMIT : ℚ := 168600
def SDI_LIMIT : ℚ := 153164
def MEDICARE_THRESHOLD : ℚ := 200000

def FEDERAL_BRACKETS : Status → List Bracket
  | .single =>
      [⟨0, some 11600, 10/100⟩, ⟨11600, some 47150, 12/100⟩, ⟨47150, some 100525, 22/100⟩,
       ⟨100525, some 191950, 24/100⟩, ⟨191950, some 243725, 32/100⟩,
       ⟨243725, some 609350, 35/100⟩, ⟨609350, none, 37/100⟩]
  | .married =>
      [⟨0, some 23200, 10/100⟩, ⟨23200, some 94300, 12/100⟩, ⟨94300, some 201050, 22/100⟩,
       ⟨201050, some 383900, 24/100⟩, ⟨383900, some 487450, 32/100⟩,
       ⟨487450, some 731200, 35/100⟩, ⟨731200, none, 37/100⟩]

def CA_BRACKETS : Status → List Bracket
  | .single =>
      [⟨0, some 10412, 1/100⟩, ⟨10412, some 24684, 2/100⟩, ⟨24684, some 38959, 4/100⟩,
       ⟨38959, some 54081, 6/100⟩, ⟨54081, some 68350, 8/100⟩, ⟨68350, some 349137, 93/1000⟩,
       ⟨349137, some 418961, 103/1000⟩, ⟨418961, some 698272, 113/1000⟩, ⟨698272, none, 123/1000⟩]
  | .married =>
      [⟨0, some 20824, 1/100⟩, ⟨20824, some 49368, 2/100⟩, ⟨49368, some 77918, 4/100⟩,
       ⟨77918, some 108162, 6/100⟩, ⟨108162, some 136700, 8/100⟩, ⟨136700, some 698274, 93/1000⟩,
       ⟨698274, some 837922, 103/1000⟩, ⟨837922, some 1396544, 113/1000⟩, ⟨1396544, none, 123/1000⟩]

def STANDARD_DEDUCTION : Status → ℚ
  | .single => 14600
  | .married => 29200

def CA_STANDARD_DEDUCTION : Status → ℚ
  | .single => 5363
  | .married => 10726

/-- The local capital-gains bracket tables of `us_tax.calculate_capital_gains_tax`. -/
def CG_BRACKETS : Status → List Bracket
  | .single => [⟨0, some 44625, 0⟩, ⟨44625, some 492300, 15/100⟩, ⟨492300, none, 20/100⟩]
  | .married => [⟨0, some 89250, 0⟩, ⟨89250, some 553850, 15/100⟩, ⟨553850, none, 20/100⟩]

/-- `us_tax.calculate_federal_tax`: clamps adjusted income minus the standard
deduction to 0 and runs the remaining-income bracket loop. -/
def calculate_federal_tax (income : ℚ) (st : Status) : ℚ :=
  usLoop (max 0 (income - STANDARD_DEDUCTION st)) (FEDERAL_BRACKETS st)

/-- `us_tax.calculate_ca_state_tax`: like the federal loop, on
`income + capital_gains` minus the CA standard deduction. -/
def calculate_ca_state_tax (income capital_gains : ℚ) (st : Status) : ℚ :=
  usLoop (max 0 (income + capital_gains - CA_STANDARD_DEDUCTION st)) (CA_BRACKETS st)

/-- The dictionary returned by `us_tax.calculate_fica_taxes`. -/
structure FicaTaxes where
  social_security : ℚ
  medicare : ℚ
  additional_medicare : ℚ
  total : ℚ
deriving DecidableEq

/-- `us_tax.calculate_fica_taxes`: Social Security capped at `SS_LIMIT`,
flat Medicare, and the additional Medicare rate above `MEDICARE_THRESHOLD`. -/
def calculate_fica_taxes (income : ℚ) : FicaTaxes :=
  let ss_tax := min income SS_LIMIT * (62/1000)
  let medicare_tax := income * (145/10000)
  let additional_medicare :=
    if MEDICARE_THRESHOLD < income then (income - MEDICARE_THRESHOLD) * (9/1000) else 0
  ⟨ss_tax, medicare_tax, additional_medicare, ss_tax + medicare_tax + additional_medicare⟩

/-- `us_tax.calculate_ca_sdi`: `min(income, SDI_LIMIT) * 0.009`. -/
def calculate_ca_sdi (income : ℚ) : ℚ := min income SDI_LIMIT * (9/1000)

/-- `us_tax.calculate_capital_gains_tax`: first-match rate on
`income + capital_gains`, falling back to `0.20`, applied to the gains. -/
def calculate_capital_gains_tax (capital_gains income : ℚ) (st : Status) : ℚ :=
  capital_gains * rateLookup (20/100) (income + capital_gains) (CG_BRACKETS st)

/-- The dictionary returned by `us_tax.calculate_marginal_rates`. -/
structure UsMarginalRates where
  federal : ℚ
  california : ℚ
  fica : ℚ
  sdi : ℚ
  total : ℚ
deriving DecidableEq

/-- `us_tax.calculate_marginal_rates`: first-match federal and CA bracket
lookups plus the conditional FICA and SDI rates. -/
def us_calculate_marginal_rates (income : ℚ) (st : Status) : UsMarginalRates :=
  let federal_rate := rateLookup 0 income (FEDERAL_BRACKETS st)
  let ca_rate := rateLookup 0 income (CA_BRACKETS st)
  let fica_rate := (145/10000 : ℚ) + (if income ≤ SS_LIMIT then (62/1000 : ℚ) else 0) +
    (if MEDICARE_THRESHOLD < income then (9/1000 : ℚ) else 0)
  let sdi_rate := if income ≤ SDI_LIMIT then (9/1000 : ℚ) else 0
  ⟨federal_rate, ca_rate, fica_rate, sdi_rate, federal_rate + ca_rate + fica_rate + sdi_rate⟩

/-- `us_tax.TaxResult`. -/
structure TaxResult where
  federal_tax : ℚ
  capital_gains_tax : ℚ
  ca_tax : ℚ
  fica_taxes : FicaTaxes
  sdi_tax : ℚ
  total_tax : ℚ
  net_income : ℚ
  marginal_rates : UsMarginalRates

/-- The loop body of `us_tax.calculate_tax_results` for one filing status
(the Python function returns the dictionary `status ↦ this value`):
federal, capital-gains, CA and marginal figures use
`adjusted_income = annual_income - actual_401k`, while FICA and SDI use the
unadjusted `annual_income`. -/
def calculate_tax_results (annual_income capital_gains actual_401k : ℚ)
    (st : Status) : TaxResult :=
  let adjusted_income := annual_income - actual_401k
  let federal_tax := calculate_federal_tax adjusted_income st
  let capital_gains_tax := calculate_capital_gains_tax capital_gains adjusted_income st
  let fica_taxes := calculate_fica_taxes annual_income
  let ca_tax := calculate_ca_state_tax adjusted_income capital_gains st
  let sdi_tax := calculate_ca_sdi annual_income
  let total_tax := federal_tax + capital_gains_tax + ca_tax + fica_taxes.total + sdi_tax
  let total_income := annual_income + capital_gains
  ⟨federal_tax, capital_gains_tax, ca_tax, fica_taxes, sdi_tax, total_tax,
   total_income - total_tax - actual_401k,
   us_calculate_marginal_rates adjusted_income st⟩

/-! ### General lemmas about valid bracket tables and the two loops -/

theorem validFrom_cons (lo : ℚ) (b : Bracket) (bs : List Bracket)
    (h : validFrom lo (b :: bs) = true) :
    b.lower = lo ∧ 0 ≤ b.rate ∧ b.rate ≤ 1 ∧
      ((b.upper = none ∧ bs = []) ∨
        ∃ u, b.upper = some u ∧ lo < u ∧ validFrom u bs = true) := by
  rcases b with ⟨l, uo, r⟩
  cases uo with
  | none =>
    simp only [validFrom, Bool.and_eq_true, decide_eq_true_eq, List.isEmpty_iff] at h
    exact ⟨h.1.1.1, h.1.1.2, h.1.2, Or.inl ⟨rfl, h.2⟩⟩
  | some u =>
    simp only [validFrom, Bool.and_eq_true, decide_eq_true_eq] at h
    exact ⟨h.1.1.1.1, h.1.1.2, h.1.2, Or.inr ⟨u, rfl, h.1.1.1.2, h.2⟩⟩

theorem usLoop_nonpos (rem : ℚ) (T : List Bracket) (h : rem ≤ 0) :
    usLoop rem T = 0 := by
  cases T with
  | nil => rfl
  | cons b bs => simp [usLoop, if_pos h]

theorem cnLiab_below (T : List Bracket) (lo : ℚ) (h : validFrom lo T = true)
    (x : ℚ) (hx : x ≤ lo) : cnLiab x T = 0 := by
  induction T generalizing lo with
  | nil => rfl
  | cons b bs ih =>
    obtain ⟨hbl, -, -, hrest⟩ := validFrom_cons lo b bs h
    have hstep : cnStep x b = 0 := by
      have : ¬ b.lower < x := by rw [hbl]; exact not_lt.2 hx
      simp [cnStep, this]
    rcases hrest with ⟨-, hbs⟩ | ⟨u, -, hlu, hv⟩
    · subst hbs; simp [cnLiab, hstep]
    · have htail : cnLiab x bs = 0 := ih u hv (le_trans hx (le_of_lt hlu))
      simp [cnLiab, hstep, htail]

theorem mem_lower_ge (T : List Bracket) (lo : ℚ) (h : validFrom lo T = true)
    (b : Bracket) (hb : b ∈ T) : lo ≤ b.lower := by
  induction T generalizing lo with
  | nil => simp at hb
  | cons t ts ih =>
    obtain ⟨htl, -, -, hrest⟩ := validFrom_cons lo t ts h
    rcases List.mem_cons.1 hb with hbt | hbts
    · subst hbt; rw [htl]
    · rcases hrest with ⟨-, hts⟩ | ⟨u, -, hlu, hv⟩
      · subst hts; simp at hbts
      · exact le_trans (le_of_lt hlu) (ih u hv hbts)

theorem cnStep_mono (b : Bracket) (hr : 0 ≤ b.rate)
    (hu : ∀ u, b.upper = some u → b.lower < u) (x y : ℚ) (hxy : x ≤ y) :
    cnStep x b ≤ cnStep y b := by
  rcases b with ⟨l, uo, r⟩
  cases uo with
  | none =>
    simp only [cnStep]
    rcases lt_or_le l x with hlx | hxl
    · rw [if_pos hlx, if_pos (lt_of_lt_of_le hlx hxy)]
      exact mul_le_mul_of_nonneg_right (by linarith) hr
    · rw [if_neg (not_lt.2 hxl)]
      rcases lt_or_le l y with hly | hyl
      · rw [if_pos hly]
        have : (0:ℚ) ≤ y - l := by linarith
        exact mul_nonneg this hr
      · rw [if_neg (not_lt.2 hyl)]
  | some u =>
    have hlu : l < u := hu u rfl
    simp only [cnStep]
    rcases lt_or_le l x with hlx | hxl
    · rw [if_pos hlx, if_pos (lt_of_lt_of_le hlx hxy)]
      refine mul_le_mul_of_nonneg_right (min_le_min (by linarith) le_rfl) hr
    · rw [if_neg (not_lt.2 hxl)]
      rcases lt_or_le l y with hly | hyl
      · rw [if_pos hly]
        have h1 : (0:ℚ) ≤ min (y - l) (u - l) := le_min (by linarith) (by linarith)
        exact mul_nonneg h1 hr
      · rw [if_neg (not_lt.2 hyl)]

theorem cnLiab_mono (T : List Bracket) (lo : ℚ) (h : validFrom lo T = true)
    (x y : ℚ) (hxy : x ≤ y) : cnLiab x T ≤ cnLiab y T := by
  induction T generalizing lo with
  | nil => simp [cnLiab]
  | cons b bs ih =>
    obtain ⟨hbl, hr, -, hrest⟩ := validFrom_cons lo b bs h
    have hu : ∀ u, b.upper = some u → b.lower < u := by
      intro u hbu
      rcases hrest with ⟨hnone, -⟩ | ⟨u2, hsome, hlu, -⟩
      · rw [hnone] at hbu; cases hbu
      · rw [hsome] at hbu
        injection hbu with h2
        subst h2
        rw [hbl]
        exact hlu
    have hstep := cnStep_mono b hr hu x y hxy
    rcases hrest with ⟨-, hbs⟩ | ⟨u, -, -, hv⟩
    · subst hbs; simpa [cnLiab] using hstep
    · have htail := ih u hv
      simp only [cnLiab]
      exact add_le_add hstep htail

theorem loops_agree (T : List Bracket) (lo : ℚ) (h : validFrom lo T = true)
    (x : ℚ) : usLoop (x - lo) T = cnLiab x T := by
  induction T generalizing lo x with
  | nil => rfl
  | cons b bs ih =>
    obtain ⟨hbl, -, -, hrest⟩ := validFrom_cons lo b bs h
    rcases le_or_lt x lo with hxlo | hlox
    · rw [usLoop_nonpos _ _ (by linarith), cnLiab_below (b :: bs) lo h x hxlo]
    · rcases hrest with ⟨hnone, hbs⟩ | ⟨u, hsome, hlu, hv⟩
      · subst hbs
        rcases b with ⟨l, uo, r⟩
        simp only at hbl hnone
        subst hbl hnone
        simp only [usLoop, bracketAmt, cnLiab, cnStep,
          if_neg (not_le.2 (by linarith : (0:ℚ) < x - l)), if_pos hlox]
      · rcases b with ⟨l, uo, r⟩
        simp only at hbl hsome
        subst hbl hsome
        have hneg : ¬ x - l ≤ 0 := not_le.2 (by linarith)
        simp only [usLoop, bracketAmt, cnLiab, cnStep, if_neg hneg, if_pos hlox]
        rcases le_or_lt u x with hux | hxu
        · have hamt : min (x - l) (u - l) = u - l := min_eq_right (by linarith)
          have hrem : x - l - min (x - l) (u - l) = x - u := by rw [hamt]; ring
          rw [hrem, ih u hv x]
        · have hamt : min (x - l) (u - l) = x - l := min_eq_left (by linarith)
          have hrem : x - l - min (x - l) (u - l) = 0 := by rw [hamt]; ring
          rw [hrem, usLoop_nonpos 0 bs le_rfl,
            cnLiab_below bs u hv x (le_of_lt hxu)]

theorem cnStep_self (b : Bracket) : cnStep b.lower b = 0 := by
  simp [cnStep]

theorem cnStep_inf (b : Bracket) (hu : b.upper = none) (x : ℚ) (hlx : b.lower ≤ x) :
    cnStep x b = (x - b.lower) * b.rate := by
  rcases lt_or_le b.lower x with h1 | h2
  · simp only [cnStep, hu, if_pos h1]
  · have hx : x = b.lower := le_antisymm h2 hlx
    rw [hx, cnStep_self]
    ring

theorem cnStep_lin (b : Bracket) (u : ℚ) (hu : b.upper = some u) (x : ℚ)
    (hlx : b.lower ≤ x) (hxu : x ≤ u) :
    cnStep x b = (x - b.lower) * b.rate := by
  rcases lt_or_le b.lower x with h1 | h2
  · simp only [cnStep, hu, if_pos h1]
    rw [min_eq_left (by linarith)]
  · have hx : x = b.lower := le_antisymm h2 hlx
    rw [hx, cnStep_self]
    ring

theorem cnStep_sat (b : Bracket) (u : ℚ) (hu : b.upper = some u) (x : ℚ)
    (hlu : b.lower < u) (hux : u ≤ x) :
    cnStep x b = (u - b.lower) * b.rate := by
  simp only [cnStep, hu, if_pos (lt_of_lt_of_le hlu hux)]
  rw [min_eq_right (by linarith)]

theorem fullContrib_some (b : Bracket) (u : ℚ) (hu : b.upper = some u) :
    fullContrib b = (u - b.lower) * b.rate := by
  rcases b with ⟨l, uo, r⟩
  have h2 : uo = some u := hu
  subst h2
  rfl

theorem cnLiab_piecewise (T : List Bracket) (lo : ℚ) (h : validFrom lo T = true)
    (b : Bracket) (hb : b ∈ T) (x : ℚ) (hlx : b.lower ≤ x)
    (hxu : ∀ u, b.upper = some u → x ≤ u) :
    cnLiab x T = cnLiab b.lower T + b.rate * (x - b.lower) := by
  induction T generalizing lo with
  | nil => simp at hb
  | cons t ts ih =>
    obtain ⟨htl, -, -, hrest⟩ := validFrom_cons lo t ts h
    rcases List.mem_cons.1 hb with hbt | hbts
    · rcases hrest with ⟨hnone, hts⟩ | ⟨u, hsome, hlu, hv⟩
      · subst hts
        rw [hbt] at hlx ⊢
        simp only [cnLiab, cnStep_self, add_zero, zero_add]
        rw [cnStep_inf t hnone x hlx]
        ring
      · have hxu2 : x ≤ u := by
          refine hxu u ?_
          rw [hbt]
          exact hsome
        have htail_x : cnLiab x ts = 0 := cnLiab_below ts u hv x hxu2
        have htail_l : cnLiab t.lower ts = 0 := by
          refine cnLiab_below ts u hv t.lower ?_
          rw [htl]
          exact le_of_lt hlu
        rw [hbt] at hlx ⊢
        simp only [cnLiab, cnStep_self, htail_x, htail_l, add_zero, zero_add]
        rw [cnStep_lin t u hsome x hlx hxu2]
        ring
    · rcases hrest with ⟨-, hts⟩ | ⟨u, hsome, hlu, hv⟩
      · subst hts; simp at hbts
      · have hub : u ≤ b.lower := mem_lower_ge ts u hv b hbts
        have hlu2 : t.lower < u := by rw [htl]; exact hlu
        have hstep_x : cnStep x t = (u - t.lower) * t.rate :=
          cnStep_sat t u hsome x hlu2 (le_trans hub hlx)
        have hstep_l : cnStep b.lower t = (u - t.lower) * t.rate :=
          cnStep_sat t u hsome b.lower hlu2 hub
        simp only [cnLiab, hstep_x, hstep_l]
        rw [ih u hv hbts]
        ring

theorem valid_suffix (T1 T2 : List Bracket) (b2 : Bracket) (lo : ℚ)
    (h : validFrom lo (T1 ++ b2 :: T2) = true) :
    validFrom b2.lower (b2 :: T2) = true := by
  induction T1 generalizing lo with
  | nil =>
    simp only [List.nil_append] at h
    obtain ⟨hbl, -, -, -⟩ := validFrom_cons lo b2 T2 h
    rw [hbl]
    exact h
  | cons t ts ih =>
    rw [List.cons_append] at h
    obtain ⟨-, -, -, hrest⟩ := validFrom_cons lo t (ts ++ b2 :: T2) h
    rcases hrest with ⟨-, hemp⟩ | ⟨u, -, -, hv⟩
    · exact absurd hemp (by simp)
    · exact ih u hv

theorem cnLiab_append_sat (T1 T2 : List Bracket) (b2 : Bracket) (lo : ℚ)
    (h : validFrom lo (T1 ++ b2 :: T2) = true) (x : ℚ) (hx : b2.lower ≤ x) :
    cnLiab x (T1 ++ b2 :: T2) = sumFull T1 + cnLiab x (b2 :: T2) := by
  induction T1 generalizing lo with
  | nil => simp [sumFull]
  | cons t ts ih =>
    rw [List.cons_append] at h
    obtain ⟨htl, -, -, hrest⟩ := validFrom_cons lo t (ts ++ b2 :: T2) h
    rcases hrest with ⟨-, hemp⟩ | ⟨u, hsome, hlu, hv⟩
    · exact absurd hemp (by simp)
    · have hub : u ≤ b2.lower := by
        refine mem_lower_ge (ts ++ b2 :: T2) u hv b2 ?_
        exact List.mem_append.2 (Or.inr (List.mem_cons_self b2 T2))
      have hlu2 : t.lower < u := by rw [htl]; exact hlu
      have hstep : cnStep x t = (u - t.lower) * t.rate :=
        cnStep_sat t u hsome x hlu2 (le_trans hub hx)
      rw [List.cons_append]
      simp only [cnLiab, sumFull, hstep, fullContrib_some t u hsome]
      rw [ih u hv]
      simp only [cnLiab]
      ring

theorem rateLookup_boundary (T1 T2 : List Bracket) (dflt l b r lo : ℚ)
    (h : validFrom lo (T1 ++ ⟨l, some b, r⟩ :: T2) = true) :
    rateLookup dflt b (T1 ++ ⟨l, some b, r⟩ :: T2) = r := by
  have hlb : l < b := by
    have hs := valid_suffix T1 T2 ⟨l, some b, r⟩ lo h
    obtain ⟨-, -, -, hrest⟩ := validFrom_cons _ _ T2 hs
    rcases hrest with ⟨hnone, -⟩ | ⟨u, hsome, hlu, -⟩
    · cases hnone
    · have hub : b = u := by injection hsome
      rw [hub]
      exact hlu
  induction T1 generalizing lo with
  | nil =>
    have hcond : withinBracket b ⟨l, some b, r⟩ = true := by
      simp [withinBracket, le_of_lt hlb]
    simp [rateLookup, hcond]
  | cons t ts ih =>
    rw [List.cons_append] at h ⊢
    obtain ⟨htl, -, -, hrest⟩ := validFrom_cons lo t _ h
    rcases hrest with ⟨-, hemp⟩ | ⟨u, hsome, hlu, hv⟩
    · exact absurd hemp (by simp)
    · have hul : u ≤ l := by
        have := mem_lower_ge _ u hv ⟨l, some b, r⟩
          (List.mem_append.2 (Or.inr (List.mem_cons_self _ T2)))
        exact this
      have hcond : withinBracket b t = false := by
        have hnb : ¬ b ≤ u := not_le.2 (lt_of_le_of_lt hul hlb)
        simp [withinBracket, hsome, hnb]
      simp only [rateLookup, hcond, Bool.false_eq_true, if_false]
      exact ih u hv

/-! ### Validity of the concrete tables -/

theorem TAX_BRACKETS_valid : validFrom 0 TAX_BRACKETS = true := by
  norm_num [TAX_BRACKETS, validFrom]

theorem FEDERAL_BRACKETS_valid (st : Status) :
    validFrom 0 (FEDERAL_BRACKETS st) = true := by
  cases st <;> norm_num [FEDERAL_BRACKETS, validFrom]

theorem CA_BRACKETS_valid (st : Status) :
    validFrom 0 (CA_BRACKETS st) = true := by
  cases st <;> norm_num [CA_BRACKETS, validFrom]

/-! ### The claims -/

/-- Claim C1: for every valid bracket table and every taxable amount exactly
equal to a bracket boundary `b` (the lower bound of some bracket), the
liability computed by the `cn_tax.calculate_tax` loop and by the
`us_tax.calculate_federal_tax` loop equals the sum of the fully-saturated
contributions `(upper - lower) * rate` of the lower brackets, and the bracket
whose lower bound is `b` contributes zero: each boundary dollar is taxed in
the lower bracket, never double-taxed or skipped. -/
theorem claim_C1_boundary_dollars (T1 T2 : List Bracket) (b2 : Bracket)
    (h : validFrom 0 (T1 ++ b2 :: T2) = true) :
    cnLiab b2.lower (T1 ++ b2 :: T2) = sumFull T1 ∧
    usLoop b2.lower (T1 ++ b2 :: T2) = sumFull T1 ∧
    cnStep b2.lower b2 = 0 := by
  have hzero : cnLiab b2.lower (b2 :: T2) = 0 :=
    cnLiab_below (b2 :: T2) b2.lower (valid_suffix T1 T2 b2 0 h) b2.lower le_rfl
  have hcn : cnLiab b2.lower (T1 ++ b2 :: T2) = sumFull T1 := by
    rw [cnLiab_append_sat T1 T2 b2 0 h b2.lower le_rfl, hzero, add_zero]
  refine ⟨hcn, ?_, cnStep_self b2⟩
  have hus := loops_agree (T1 ++ b2 :: T2) 0 h b2.lower
  rw [sub_zero] at hus
  rw [hus, hcn]

/-- Witness for C1 at the CN boundary 36000: the first bracket is saturated
(36000 * 0.03 = 1080) and the bracket starting at 36000 contributes nothing. -/
theorem claim_C1_witness :
    cnLiab 36000 TAX_BRACKETS = 1080 ∧ usLoop 36000 TAX_BRACKETS = 1080 := by
  have h := claim_C1_boundary_dollars [⟨0, some 36000, 3/100⟩]
      [⟨144000, some 300000, 20/100⟩, ⟨300000, some 420000, 25/100⟩,
       ⟨420000, some 660000, 30/100⟩, ⟨660000, some 960000, 35/100⟩,
       ⟨960000, none, 45/100⟩]
      ⟨36000, some 144000, 10/100⟩ (by exact TAX_BRACKETS_valid)
  have hsum : sumFull [⟨0, some 36000, 3/100⟩] = 1080 := by
    norm_num [sumFull, fullContrib]
  exact ⟨by simpa [TAX_BRACKETS, hsum] using h.1, by simpa [TAX_BRACKETS, hsum] using h.2.1⟩

/-- Claim C2: for every valid bracket table, the liability computed by either
bracket loop is zero at zero, monotonically non-decreasing for amounts
`0 ≤ x ≤ y`, and on each bracket interval `[lower, upper]` it equals the
linear function `liability(lower) + rate * (x - lower)`; since consecutive
brackets share their endpoints, the liability is a continuous piecewise-linear
function with no jump discontinuities. -/
theorem claim_C2_monotone_continuous (T : List Bracket) (h : validFrom 0 T = true) :
    cnLiab 0 T = 0 ∧ usLoop 0 T = 0 ∧
    (∀ x y : ℚ, 0 ≤ x → x ≤ y → cnLiab x T ≤ cnLiab y T) ∧
    (∀ x y : ℚ, 0 ≤ x → x ≤ y → usLoop x T ≤ usLoop y T) ∧
    (∀ b : Bracket, b ∈ T → ∀ x : ℚ, b.lower ≤ x →
      (∀ u, b.upper = some u → x ≤ u) →
      cnLiab x T = cnLiab b.lower T + b.rate * (x - b.lower)) := by
  have hus : ∀ x : ℚ, usLoop x T = cnLiab x T := by
    intro x
    have h2 := loops_agree T 0 h x
    rwa [sub_zero] at h2
  refine ⟨cnLiab_below T 0 h 0 le_rfl, ?_, ?_, ?_, ?_⟩
  · rw [hus 0]
    exact cnLiab_below T 0 h 0 le_rfl
  · intro x y _ hxy
    exact cnLiab_mono T 0 h x y hxy
  · intro x y _ hxy
    rw [hus x, hus y]
    exact cnLiab_mono T 0 h x y hxy
  · intro b hb x hlx hxu
    exact cnLiab_piecewise T 0 h b hb x hlx hxu

/-- Witness for C2 on the CN bracket table. -/
theorem claim_C2_witness :
    cnLiab 0 TAX_BRACKETS = 0 ∧
    cnLiab 100 TAX_BRACKETS ≤ cnLiab 200 TAX_BRACKETS ∧
    usLoop 100 TAX_BRACKETS ≤ usLoop 200 TAX_BRACKETS ∧
    cnLiab 40000 TAX_BRACKETS = cnLiab 36000 TAX_BRACKETS + (10/100) * (40000 - 36000) := by
  have h := claim_C2_monotone_continuous TAX_BRACKETS TAX_BRACKETS_valid
  refine ⟨h.1, h.2.2.1 100 200 (by norm_num) (by norm_num),
    h.2.2.2.1 100 200 (by norm_num) (by norm_num), ?_⟩
  have hmem : (⟨36000, some 144000, 10/100⟩ : Bracket) ∈ TAX_BRACKETS := by
    simp [TAX_BRACKETS]
  have h2 := h.2.2.2.2 ⟨36000, some 144000, 10/100⟩ hmem 40000 (by norm_num)
    (by intro u hu; injection hu with h3; rw [← h3]; norm_num)
  simpa using h2

/-- Claim C6: the forward-accumulation loop of `cn_tax.calculate_tax` and the
remaining-income subtraction loop of `us_tax.calculate_federal_tax` produce
identical total liability on every bracket table satisfying the BracketTable
invariant and every taxable amount `x ≥ 0`. -/
theorem claim_C6_loops_equivalent (T : List Bracket) (h : validFrom 0 T = true)
    (x : ℚ) (_hx : 0 ≤ x) : cnLiab x T = usLoop x T := by
  have h2 := loops_agree T 0 h x
  rw [sub_zero] at h2
  exact h2.symm

/-- Witness for C6 on the CN table at 50000 (both loops give 2480). -/
theorem claim_C6_witness :
    cnLiab 50000 TAX_BRACKETS = usLoop 50000 TAX_BRACKETS ∧
    cnLiab 50000 TAX_BRACKETS = 2480 := by
  refine ⟨claim_C6_loops_equivalent TAX_BRACKETS TAX_BRACKETS_valid 50000 (by norm_num), ?_⟩
  norm_num [cnLiab, cnStep, TAX_BRACKETS, min_def]

/-- Counterexample to C3: at income exactly on a bracket boundary the
marginal-rate lookups return the LOWER bracket's rate, not the higher one.
Federal single at 11600 (the boundary of the 10% and 12% brackets) gives
0.10, and the CN lookup at monthly salary 3000 (annual 36000, the boundary
of the 3% and 10% brackets) gives 0.03. -/
theorem claim_C3_counterexample :
    (us_calculate_marginal_rates 11600 Status.single).federal = 10/100 ∧
    (10 : ℚ)/100 ≠ 12/100 ∧
    (cn_calculate_marginal_rates 3000).tax = 3/100 ∧
    (3 : ℚ)/100 ≠ 10/100 := by
  refine ⟨?_, by norm_num, ?_, by norm_num⟩
  · norm_num [us_calculate_marginal_rates, FEDERAL_BRACKETS, rateLookup, withinBracket]
  · norm_num [cn_calculate_marginal_rates, TAX_BRACKETS, rateLookup, withinBracket]

/-- Claim C3 as amended: both marginal-rate lookups test
`lower <= income <= upper` and take the FIRST matching bracket, so at a
boundary `b` (the upper bound of one bracket and the lower bound of the
next) they return the LOWER bracket's rate: for every valid table
containing a bracket `⟨l, b, r⟩`, looking up income `b` yields that
bracket's rate `r` (whatever the default is). -/
theorem claim_C3_amended_lower_rate (T1 T2 : List Bracket) (l b r : ℚ)
    (h : validFrom 0 (T1 ++ ⟨l, some b, r⟩ :: T2) = true) (dflt : ℚ) :
    rateLookup dflt b (T1 ++ ⟨l, some b, r⟩ :: T2) = r :=
  rateLookup_boundary T1 T2 dflt l b r 0 h

/-- Witness for the amended C3 at the federal single boundary 11600. -/
theorem claim_C3_amended_witness :
    rateLookup 0 11600 (FEDERAL_BRACKETS Status.single) = 10/100 := by
  have h := claim_C3_amended_lower_rate []
      [⟨11600, some 47150, 12/100⟩, ⟨47150, some 100525, 22/100⟩,
       ⟨100525, some 191950, 24/100⟩, ⟨191950, some 243725, 32/100⟩,
       ⟨243725, some 609350, 35/100⟩, ⟨609350, none, 37/100⟩]
      0 11600 (10/100) (by exact FEDERAL_BRACKETS_valid Status.single) 0
  simpa [FEDERAL_BRACKETS] using h

/-- Claim C4: a negative taxable base yields exactly zero tax liability,
never a negative one: `cn_tax.calculate_tax` returns tax 0 when its
taxable income is negative, and the US federal and CA state computations
return 0 when the deductions reach the (gains-inclusive) income. -/
theorem claim_C4_negative_base_zero (s : ℚ) (d : SpecialDeductions)
    (h1 : cn_taxable_income s d < 0) (inc g : ℚ) (st : Status)
    (h2 : inc ≤ STANDARD_DEDUCTION st) (h3 : inc + g ≤ CA_STANDARD_DEDUCTION st) :
    (cn_calculate_tax s d).tax = 0 ∧ calculate_federal_tax inc st = 0 ∧
    calculate_ca_state_tax inc g st = 0 := by
  refine ⟨?_, ?_, ?_⟩
  · have hneg : ¬ 0 < cn_taxable_income s d := not_lt.2 (le_of_lt h1)
    simp [cn_calculate_tax, hneg]
  · have hmax : max 0 (inc - STANDARD_DEDUCTION st) = 0 := max_eq_left (by linarith)
    rw [calculate_federal_tax, hmax]
    exact usLoop_nonpos 0 _ le_rfl
  · have hmax : max 0 (inc + g - CA_STANDARD_DEDUCTION st) = 0 := max_eq_left (by linarith)
    rw [calculate_ca_state_tax, hmax]
    exact usLoop_nonpos 0 _ le_rfl

/-- Witness for C4: monthly salary 1000 gives a negative CN taxable base
(1000 - 5000 - 812.925 < 0), and income 5000 is below both US standard
deductions for a single filer. -/
theorem claim_C4_witness :
    (cn_calculate_tax 1000 zeroDeductions).tax = 0 ∧
    calculate_federal_tax 5000 Status.single = 0 ∧
    calculate_ca_state_tax 5000 0 Status.single = 0 :=
  claim_C4_negative_base_zero 1000 zeroDeductions
    (by norm_num [cn_taxable_income, calculate_social_insurance,
      special_deductions_total, zeroDeductions, TAX_FREE_THRESHOLD,
      SOCIAL_INSURANCE_BASE_MIN, SOCIAL_INSURANCE_BASE_MAX, PENSION_RATE,
      MEDICAL_RATE, UNEMPLOYMENT_RATE, HOUSING_FUND_RATE, min_def, max_def])
    5000 0 Status.single
    (by norm_num [STANDARD_DEDUCTION])
    (by norm_num [CA_STANDARD_DEDUCTION])

theorem rateLookup_neg (T : List Bracket) (hT : ∀ b ∈ T, 0 ≤ b.lower)
    (x : ℚ) (hx : x < 0) : rateLookup 0 x T = 0 := by
  induction T with
  | nil => rfl
  | cons b bs ih =>
    have hb : ¬ b.lower ≤ x :=
      not_le.2 (lt_of_lt_of_le hx (hT b (List.mem_cons_self b bs)))
    have hcond : withinBracket x b = false := by
      simp [withinBracket, hb]
    simp only [rateLookup, hcond, Bool.false_eq_true, if_false]
    exact ih (fun b2 hb2 => hT b2 (List.mem_cons_of_mem b hb2))

/-- Counterexample to C7: on a negative income the code does not fail with a
typed `InvalidInput` error — there is no input validation anywhere in
`cn_tax` or `us_tax` — it returns ordinary numeric results:
`calculate_federal_tax(-1000)` clamps the taxable base with `max(0, ·)` and
returns 0, `cn_tax.calculate_tax(-1000)` returns tax 0 through the
`taxable_income > 0` guard, and the federal marginal lookup falls through all
brackets to its default 0. -/
theorem claim_C7_counterexample :
    calculate_federal_tax (-1000) Status.single = 0 ∧
    (cn_calculate_tax (-1000) zeroDeductions).tax = 0 ∧
    (us_calculate_marginal_rates (-1000) Status.single).federal = 0 := by
  refine ⟨?_, ?_, ?_⟩
  · norm_num [calculate_federal_tax, STANDARD_DEDUCTION, max_def, usLoop,
      FEDERAL_BRACKETS]
  · norm_num [cn_calculate_tax, cn_taxable_income, calculate_social_insurance,
      special_deductions_total, zeroDeductions, TAX_FREE_THRESHOLD,
      SOCIAL_INSURANCE_BASE_MIN, SOCIAL_INSURANCE_BASE_MAX, PENSION_RATE,
      MEDICAL_RATE, UNEMPLOYMENT_RATE, HOUSING_FUND_RATE, min_def, max_def]
  · norm_num [us_calculate_marginal_rates, FEDERAL_BRACKETS, rateLookup,
      withinBracket]

/-- Claim C7 as amended: negative inputs are not rejected and no typed error
exists; instead every function returns a numeric result: for any negative
income the federal tax is 0 (the `max(0, ·)` clamp), the CN monthly tax is 0
(the `taxable_income > 0` guard, given non-negative special deductions), and
the federal bracket lookup returns its default 0 (no bracket matches a
negative income). NaN/non-finite inputs do not exist over exact rationals. -/
theorem claim_C7_amended_no_error (inc : ℚ) (st : Status) (h : inc < 0)
    (d : SpecialDeductions) (hd : 0 ≤ special_deductions_total d) :
    calculate_federal_tax inc st = 0 ∧ (cn_calculate_tax inc d).tax = 0 ∧
    rateLookup 0 inc (FEDERAL_BRACKETS st) = 0 := by
  refine ⟨?_, ?_, ?_⟩
  · have hded : 0 ≤ STANDARD_DEDUCTION st := by
      cases st <;> norm_num [STANDARD_DEDUCTION]
    have hmax : max 0 (inc - STANDARD_DEDUCTION st) = 0 := max_eq_left (by linarith)
    rw [calculate_federal_tax, hmax]
    exact usLoop_nonpos 0 _ le_rfl
  · have hbase : SOCIAL_INSURANCE_BASE_MIN ≤
        min (max inc SOCIAL_INSURANCE_BASE_MIN) SOCIAL_INSURANCE_BASE_MAX :=
      le_min (le_max_right _ _)
        (by norm_num [SOCIAL_INSURANCE_BASE_MIN, SOCIAL_INSURANCE_BASE_MAX])
    have hpt : 0 ≤ (calculate_social_insurance inc).personal_total := by
      simp only [calculate_social_insurance]
      have h0 : (0:ℚ) ≤ min (max inc SOCIAL_INSURANCE_BASE_MIN) SOCIAL_INSURANCE_BASE_MAX := by
        refine le_trans ?_ hbase
        norm_num [SOCIAL_INSURANCE_BASE_MIN]
      norm_num [PENSION_RATE, MEDICAL_RATE, UNEMPLOYMENT_RATE, HOUSING_FUND_RATE]
      nlinarith [h0]
    have hneg : ¬ 0 < cn_taxable_income inc d := by
      rw [cn_taxable_income]
      push_neg
      have : (0:ℚ) < TAX_FREE_THRESHOLD := by norm_num [TAX_FREE_THRESHOLD]
      linarith
    simp [cn_calculate_tax, hneg]
  · refine rateLookup_neg (FEDERAL_BRACKETS st) ?_ inc h
    cases st <;> norm_num [FEDERAL_BRACKETS, List.forall_mem_cons]

/-- Witness for the amended C7 at income -1000, single, zero deductions. -/
theorem claim_C7_amended_witness :
    calculate_federal_tax (-1000) Status.married = 0 ∧
    (cn_calculate_tax (-1000) zeroDeductions).tax = 0 ∧
    rateLookup 0 (-1000) (FEDERAL_BRACKETS Status.married) = 0 :=
  claim_C7_amended_no_error (-1000) Status.married (by norm_num) zeroDeductions
    (by norm_num [special_deductions_total, zeroDeductions])

theorem personal_total_eq (s : ℚ) :
    (calculate_social_insurance s).personal_total =
      min (max s SOCIAL_INSURANCE_BASE_MIN) SOCIAL_INSURANCE_BASE_MAX *
        (PENSION_RATE + MEDICAL_RATE + UNEMPLOYMENT_RATE + HOUSING_FUND_RATE) := by
  simp only [calculate_social_insurance]
  ring

theorem ss_eq (x : ℚ) :
    (calculate_fica_taxes x).social_security = min x SS_LIMIT * (62/1000) := rfl

/-- Claim C5: each capped-base levy (CN personal social insurance clamped to
`[3613, 31884]`, US Social Security capped at `SS_LIMIT`, CA SDI capped at
`SDI_LIMIT`) is monotonically non-decreasing in gross income, equals
`ceiling * rate` for all income at or above the ceiling, and in particular
gives the same contribution at the ceiling as at ceiling + 1. -/
theorem claim_C5_capped_levies :
    (∀ s t : ℚ, s ≤ t → (calculate_social_insurance s).personal_total ≤
      (calculate_social_insurance t).personal_total) ∧
    (∀ s : ℚ, SOCIAL_INSURANCE_BASE_MAX ≤ s →
      (calculate_social_insurance s).personal_total =
        SOCIAL_INSURANCE_BASE_MAX *
          (PENSION_RATE + MEDICAL_RATE + UNEMPLOYMENT_RATE + HOUSING_FUND_RATE)) ∧
    (calculate_social_insurance SOCIAL_INSURANCE_BASE_MAX).personal_total =
      (calculate_social_insurance (SOCIAL_INSURANCE_BASE_MAX + 1)).personal_total ∧
    (∀ x y : ℚ, x ≤ y → (calculate_fica_taxes x).social_security ≤
      (calculate_fica_taxes y).social_security) ∧
    (∀ x : ℚ, SS_LIMIT ≤ x →
      (calculate_fica_taxes x).social_security = SS_LIMIT * (62/1000)) ∧
    (calculate_fica_taxes SS_LIMIT).social_security =
      (calculate_fica_taxes (SS_LIMIT + 1)).social_security ∧
    (∀ x y : ℚ, x ≤ y → calculate_ca_sdi x ≤ calculate_ca_sdi y) ∧
    (∀ x : ℚ, SDI_LIMIT ≤ x → calculate_ca_sdi x = SDI_LIMIT * (9/1000)) ∧
    calculate_ca_sdi SDI_LIMIT = calculate_ca_sdi (SDI_LIMIT + 1) := by
  refine ⟨?_, ?_, ?_, ?_, ?_, ?_, ?_, ?_, ?_⟩
  · intro s t hst
    rw [personal_total_eq, personal_total_eq]
    refine mul_le_mul_of_nonneg_right (min_le_min (max_le_max hst le_rfl) le_rfl) ?_
    norm_num [PENSION_RATE, MEDICAL_RATE, UNEMPLOYMENT_RATE, HOUSING_FUND_RATE]
  · intro s hs
    have h1 : SOCIAL_INSURANCE_BASE_MIN ≤ s := by
      refine le_trans ?_ hs
      norm_num [SOCIAL_INSURANCE_BASE_MIN, SOCIAL_INSURANCE_BASE_MAX]
    rw [personal_total_eq, max_eq_left h1, min_eq_right hs]
  · rw [personal_total_eq, personal_total_eq]
    norm_num [SOCIAL_INSURANCE_BASE_MIN, SOCIAL_INSURANCE_BASE_MAX, min_def, max_def]
  · intro x y hxy
    rw [ss_eq, ss_eq]
    refine mul_le_mul_of_nonneg_right (min_le_min hxy le_rfl) (by norm_num)
  · intro x hx
    rw [ss_eq, min_eq_right hx]
  · rw [ss_eq, ss_eq]
    norm_num [SS_LIMIT, min_def]
  · intro x y hxy
    rw [calculate_ca_sdi, calculate_ca_sdi]
    refine mul_le_mul_of_nonneg_right (min_le_min hxy le_rfl) (by norm_num)
  · intro x hx
    rw [calculate_ca_sdi, min_eq_right hx]
  · rw [calculate_ca_sdi, calculate_ca_sdi]
    norm_num [SDI_LIMIT, min_def]

/-- Witness for C5 at concrete incomes on each levy. -/
theorem claim_C5_witness :
    (calculate_social_insurance 10000).personal_total ≤
      (calculate_social_insurance 20000).personal_total ∧
    (calculate_social_insurance 40000).personal_total =
      SOCIAL_INSURANCE_BASE_MAX *
        (PENSION_RATE + MEDICAL_RATE + UNEMPLOYMENT_RATE + HOUSING_FUND_RATE) ∧
    (calculate_fica_taxes 100000).social_security ≤
      (calculate_fica_taxes 200000).social_security ∧
    (calculate_fica_taxes 200000).social_security = SS_LIMIT * (62/1000) ∧
    calculate_ca_sdi 100000 ≤ calculate_ca_sdi 200000 ∧
    calculate_ca_sdi 200000 = SDI_LIMIT * (9/1000) :=
  ⟨claim_C5_capped_levies.1 10000 20000 (by norm_num),
   claim_C5_capped_levies.2.1 40000 (by norm_num [SOCIAL_INSURANCE_BASE_MAX]),
   claim_C5_capped_levies.2.2.2.1 100000 200000 (by norm_num),
   claim_C5_capped_levies.2.2.2.2.1 200000 (by norm_num [SS_LIMIT]),
   claim_C5_capped_levies.2.2.2.2.2.2.1 100000 200000 (by norm_num),
   claim_C5_capped_levies.2.2.2.2.2.2.2.1 200000 (by norm_num [SDI_LIMIT])⟩

/-- Claim C8: for monthly salary 20000 with zero special deductions, the CN
computation yields `taxable_income = 20000 - 5000 - personal_insurance_total`
(= 10500, with personal insurance 4500), and the returned monthly tax is the
annualized bracket liability on `taxable_income * 12` divided by 12 (= 840). -/
theorem claim_C8_scenario :
    (cn_calculate_tax 20000 zeroDeductions).taxable_income =
      20000 - TAX_FREE_THRESHOLD - (calculate_social_insurance 20000).personal_total ∧
    (cn_calculate_tax 20000 zeroDeductions).tax =
      cnLiab (((20000 : ℚ) - TAX_FREE_THRESHOLD -
        (calculate_social_insurance 20000).personal_total) * 12) TAX_BRACKETS / 12 ∧
    (cn_calculate_tax 20000 zeroDeductions).tax = 840 := by
  have hpt : (calculate_social_insurance 20000).personal_total = 4500 := by
    rw [personal_total_eq]
    norm_num [SOCIAL_INSURANCE_BASE_MIN, SOCIAL_INSURANCE_BASE_MAX, PENSION_RATE,
      MEDICAL_RATE, UNEMPLOYMENT_RATE, HOUSING_FUND_RATE, min_def, max_def]
  have hti : cn_taxable_income 20000 zeroDeductions = 10500 := by
    rw [cn_taxable_income, hpt]
    norm_num [special_deductions_total, zeroDeductions, TAX_FREE_THRESHOLD]
  have hliab : cnLiab 126000 TAX_BRACKETS = 10080 := by
    norm_num [cnLiab, cnStep, TAX_BRACKETS, min_def]
  refine ⟨?_, ?_, ?_⟩
  · show cn_taxable_income 20000 zeroDeductions = _
    rw [hti, hpt]
    norm_num [TAX_FREE_THRESHOLD]
  · show (if 0 < cn_taxable_income 20000 zeroDeductions then
        cnLiab (cn_taxable_income 20000 zeroDeductions * 12) TAX_BRACKETS else 0) / 12 = _
    rw [hti, hpt]
    norm_num [TAX_FREE_THRESHOLD]
  · show (if 0 < cn_taxable_income 20000 zeroDeductions then
        cnLiab (cn_taxable_income 20000 zeroDeductions * 12) TAX_BRACKETS else 0) / 12 = 840
    rw [hti]
    norm_num [hliab]

/-- Claim C9: for every monthly salary (including 0 and values below the
minimum base), `calculate_social_insurance` clamps the base to
`[3613, 31884]`, each personal component is the base times its fixed rate,
the personal total is `base * (0.08 + 0.02 + 0.005 + 0.12)`, and the
personal total is strictly positive (the minimum-base clamp always applies). -/
theorem claim_C9_insurance_invariants (s : ℚ) :
    (calculate_social_insurance s).base =
      min (max s SOCIAL_INSURANCE_BASE_MIN) SOCIAL_INSURANCE_BASE_MAX ∧
    SOCIAL_INSURANCE_BASE_MIN ≤ (calculate_social_insurance s).base ∧
    (calculate_social_insurance s).base ≤ SOCIAL_INSURANCE_BASE_MAX ∧
    (calculate_social_insurance s).pension =
      (calculate_social_insurance s).base * PENSION_RATE ∧
    (calculate_social_insurance s).medical =
      (calculate_social_insurance s).base * MEDICAL_RATE ∧
    (calculate_social_insurance s).unemployment =
      (calculate_social_insurance s).base * UNEMPLOYMENT_RATE ∧
    (calculate_social_insurance s).housing_fund =
      (calculate_social_insurance s).base * HOUSING_FUND_RATE ∧
    (calculate_social_insurance s).personal_total =
      (calculate_social_insurance s).base *
        (PENSION_RATE + MEDICAL_RATE + UNEMPLOYMENT_RATE + HOUSING_FUND_RATE) ∧
    0 < (calculate_social_insurance s).personal_total := by
  have hmin : SOCIAL_INSURANCE_BASE_MIN ≤ (calculate_social_insurance s).base :=
    le_min (le_max_right _ _)
      (by norm_num [SOCIAL_INSURANCE_BASE_MIN, SOCIAL_INSURANCE_BASE_MAX])
  have htot : (calculate_social_insurance s).personal_total =
      (calculate_social_insurance s).base *
        (PENSION_RATE + MEDICAL_RATE + UNEMPLOYMENT_RATE + HOUSING_FUND_RATE) := by
    simp only [calculate_social_insurance]
    ring
  refine ⟨rfl, hmin, min_le_right _ _, rfl, rfl, rfl, rfl, htot, ?_⟩
  rw [htot]
  have hb0 : (0:ℚ) < (calculate_social_insurance s).base :=
    lt_of_lt_of_le (by norm_num [SOCIAL_INSURANCE_BASE_MIN]) hmin
  refine mul_pos hb0 ?_
  norm_num [PENSION_RATE, MEDICAL_RATE, UNEMPLOYMENT_RATE, HOUSING_FUND_RATE]

/-- Counterexample to C10 as stated: the claim lists the fields changed by
`actual_401k` as only `federal_tax`, `capital_gains_tax`, `ca_tax`,
`marginal_rates` and `net_income`, but `total_tax` also changes: with annual
income 100000, no capital gains, the totals for 401(k) contributions 0 and
23000 differ. -/
theorem claim_C10_counterexample :
    (calculate_tax_results 100000 0 0 Status.single).total_tax ≠
    (calculate_tax_results 100000 0 23000 Status.single).total_tax := by
  norm_num [calculate_tax_results, calculate_federal_tax, calculate_ca_state_tax,
    calculate_capital_gains_tax, calculate_fica_taxes, calculate_ca_sdi,
    rateLookup, withinBracket, usLoop, bracketAmt, FEDERAL_BRACKETS, CA_BRACKETS,
    CG_BRACKETS, STANDARD_DEDUCTION, CA_STANDARD_DEDUCTION, SS_LIMIT, SDI_LIMIT,
    MEDICARE_THRESHOLD, min_def, max_def]

/-- Claim C10 as amended: in `us_tax.calculate_tax_results` the FICA taxes and
CA SDI are computed from the unadjusted `annual_income`, so two calls that
differ only in `actual_401k` return identical `fica_taxes` and `sdi_tax`
fields for every filing status — the 401(k) contribution changes only the
federal, capital-gains, CA, marginal-rate, total-tax and net-income figures. -/
theorem claim_C10_fica_sdi_frame (annual_income capital_gains k1 k2 : ℚ)
    (st : Status) :
    (calculate_tax_results annual_income capital_gains k1 st).fica_taxes =
      (calculate_tax_results annual_income capital_gains k2 st).fica_taxes ∧
    (calculate_tax_results annual_income capital_gains k1 st).sdi_tax =
      (calculate_tax_results annual_income capital_gains k2 st).sdi_tax :=
  ⟨rfl, rfl⟩

/-- Witness for C9 at monthly salary 0: the base is still clamped to the
minimum and the personal contribution is positive. -/
theorem claim_C9_witness :
    SOCIAL_INSURANCE_BASE_MIN ≤ (calculate_social_insurance 0).base ∧
    0 < (calculate_social_insurance 0).personal_total :=
  ⟨(claim_C9_insurance_invariants 0).2.1,
   (claim_C9_insurance_invariants 0).2.2.2.2.2.2.2.2⟩

/-- Witness for the amended C10 at annual income 100000, 401(k) 0 vs 23000. -/
theorem claim_C10_witness :
    (calculate_tax_results 100000 0 0 Status.single).fica_taxes =
      (calculate_tax_results 100000 0 23000 Status.single).fica_taxes ∧
    (calculate_tax_results 100000 0 0 Status.single).sdi_tax =
      (calculate_tax_results 100000 0 23000 Status.single).sdi_tax :=
  claim_C10_fica_sdi_frame 100000 0 0 23000 Status.single

end TaxSpec
